import Mathlib

/-
Verification of the conjure-runtime request-body and client-factory core.

The definitions below are a shallow embedding of the Rust sources:
  src/conjure-runtime/src/body.rs           (BodyPart, BytesBody, ResetTrackingBody, BodyWriter)
  src/conjure-runtime/src/client_factory.rs (ClientFactory::client)
Bytes are modelled as `List Nat`; the bounded mpsc sender is modelled as the
list of parts already sent plus a flag recording whether the receiver is
still alive (a send on a dropped receiver fails, as in futures::mpsc).
Fallible operations return their `io::Result` outcome together with the
state after the call, so the error paths keep the state they leave behind.
-/

namespace Conjure

/-- A unit sent from the body producer to the transport: either a chunk of
bytes or the terminal end-of-stream marker (`BodyPart` in the raw module). -/
inductive BodyPart where
  | chunk (bytes : List Nat)
  | done
deriving DecidableEq, Repr

/-- The kinds of `std::io::Error` the embedded code can construct.  body.rs
only ever builds errors of kind `Other`; the further constructors keep the
statement "the error has I/O kind Other" from being vacuous. -/
inductive ErrorKind where
  | other
  | brokenPipe
  | unexpectedEof
deriving DecidableEq, Repr

/-- An `std::io::Error`, reduced to its kind. -/
structure IoError where
  kind : ErrorKind
deriving DecidableEq, Repr

/-- The sender half of the bounded `futures::mpsc` channel of `BodyPart`s:
the parts sent so far, and whether the receiver is still alive.  A send on
a channel whose receiver was dropped fails. -/
structure Channel where
  receiverAlive : Bool
  sent : List BodyPart
deriving DecidableEq, Repr

/-- A send on the channel: appends the part when the receiver is alive,
fails otherwise (the disconnection error of futures::mpsc). -/
def Channel.send (c : Channel) (p : BodyPart) : Except IoError Channel :=
  if c.receiverAlive then .ok { c with sent := c.sent ++ [p] }
  else .error ⟨ErrorKind.other⟩

/-- `BodyWriter` (body.rs:203): the channel sender plus the internal
`BytesMut` accumulator for small writes. -/
structure BodyWriter where
  channel : Channel
  buf : List Nat
deriving DecidableEq, Repr

/-- `BodyWriter::new` (body.rs:212): fresh writer with an empty buffer. -/
def BodyWriter.new (c : Channel) : BodyWriter :=
  { channel := c, buf := [] }

/-- `BodyWriter::poll_flush` (body.rs:259-273): an empty buffer completes
immediately; otherwise the whole buffer is split off and sent as one
`Chunk`, any send failure being mapped to an I/O error of kind `Other`. -/
def BodyWriter.poll_flush (w : BodyWriter) : Except IoError Unit × BodyWriter :=
  if w.buf.isEmpty then (.ok (), w)
  else
    match w.channel.send (.chunk w.buf) with
    | .ok c => (.ok (), { channel := c, buf := [] })
    | .error e => (.error e, w)

/-- `BodyWriter::finish` (body.rs:220-228): flush the buffer, then send the
terminal `Done` marker; send failures map to I/O errors of kind `Other`. -/
def BodyWriter.finish (w : BodyWriter) : Except IoError Unit × BodyWriter :=
  match w.poll_flush with
  | (.error e, w1) => (.error e, w1)
  | (.ok _, w1) =>
    match w1.channel.send .done with
    | .ok c => (.ok (), { w1 with channel := c })
    | .error e => (.error e, w1)

/-- `BodyWriter::write_bytes` (body.rs:234-242): flush the buffer, then send
the caller's bytes directly as one `Chunk`. -/
def BodyWriter.write_bytes (w : BodyWriter) (bytes : List Nat) :
    Except IoError Unit × BodyWriter :=
  match w.poll_flush with
  | (.error e, w1) => (.error e, w1)
  | (.ok _, w1) =>
    match w1.channel.send (.chunk bytes) with
    | .ok c => (.ok (), { w1 with channel := c })
    | .error e => (.error e, w1)

/-- `BodyWriter::poll_write` (body.rs:246-257): when the accumulator already
holds strictly more than 4096 bytes it is flushed first; the incoming bytes
are then appended to the accumulator and the full length is accepted. -/
def BodyWriter.poll_write (w : BodyWriter) (buf : List Nat) :
    Except IoError Nat × BodyWriter :=
  if 4096 < w.buf.length then
    match w.poll_flush with
    | (.error e, w1) => (.error e, w1)
    | (.ok _, w1) => (.ok buf.length, { w1 with buf := w1.buf ++ buf })
  else (.ok buf.length, { w with buf := w.buf ++ buf })

/-- `BodyWriter::poll_shutdown` (body.rs:275-277): immediately ready with
success, touching nothing. -/
def BodyWriter.poll_shutdown (w : BodyWriter) : Except IoError Unit × BodyWriter :=
  (.ok (), w)

/-- The sizes of the chunks among a list of body parts, in order. -/
def chunkSizes : List BodyPart → List Nat
  | [] => []
  | .chunk bs :: rest => bs.length :: chunkSizes rest
  | .done :: rest => chunkSizes rest

/-- Concatenation of all chunk payloads in a list of body parts, in order. -/
def bytesOnChannel : List BodyPart → List Nat
  | [] => []
  | .chunk bs :: rest => bs ++ bytesOnChannel rest
  | .done :: rest => bytesOnChannel rest

/-- A fresh writer on an open channel, the starting point of the 10000-byte
end-to-end scenario. -/
def scenarioWriter : BodyWriter :=
  BodyWriter.new { receiverAlive := true, sent := [] }

/-- The writer after the three successive AsyncWrite writes of the scenario:
4096 bytes, 4096 bytes and 1808 bytes (10000 bytes in total). -/
def scenarioAfterWrites : BodyWriter :=
  let w1 := (scenarioWriter.poll_write (List.replicate 4096 0)).2
  let w2 := (w1.poll_write (List.replicate 4096 1)).2
  (w2.poll_write (List.replicate 1808 2)).2

/-- The writer after the scenario's writes followed by `finish`. -/
def scenarioFinal : BodyWriter :=
  scenarioAfterWrites.finish.2

/-- The behaviour of an inner `Body` implementation wrapped by
`ResetTrackingBody`: its `write` (returning whether it succeeded together
with the inner body's next state) and its `reset` (returning whether the
rewind succeeded, per the `Body` trait contract). -/
structure BodyImpl (β : Type) where
  write : β → Bool × β
  reset : β → Bool × β

/-- `ResetTrackingBody` (body.rs:138): an inner body plus the `needs_reset`
flag. -/
structure ResetTrackingBody (β : Type) where
  needs_reset : Bool
  body : β

/-- `ResetTrackingBody::new` (body.rs:151): wraps a body with the flag
clear. -/
def ResetTrackingBody.new {β : Type} (b : β) : ResetTrackingBody β :=
  { needs_reset := false, body := b }

/-- `ResetTrackingBody::write` (body.rs:185-189): sets `needs_reset` to true,
then delegates to the inner body's write. -/
def ResetTrackingBody.write {β : Type} (t : ResetTrackingBody β) (impl : BodyImpl β) :
    Bool × ResetTrackingBody β :=
  ((impl.write t.body).1, { needs_reset := true, body := (impl.write t.body).2 })

/-- `ResetTrackingBody::reset` (body.rs:191-198): delegates to the inner
body's reset and clears `needs_reset` only when that reset returned true. -/
def ResetTrackingBody.reset {β : Type} (t : ResetTrackingBody β) (impl : BodyImpl β) :
    Bool × ResetTrackingBody β :=
  ((impl.reset t.body).1,
   { needs_reset := if (impl.reset t.body).1 then false else t.needs_reset,
     body := (impl.reset t.body).2 })

/-- An operation invoked on a `ResetTrackingBody` over its lifetime. -/
inductive BodyOp where
  | write
  | reset
deriving DecidableEq, Repr

/-- The state of a `ResetTrackingBody` after one operation. -/
def ResetTrackingBody.step {β : Type} (impl : BodyImpl β) (t : ResetTrackingBody β) :
    BodyOp → ResetTrackingBody β
  | .write => (t.write impl).2
  | .reset => (t.reset impl).2

/-- The state of a `ResetTrackingBody` after a sequence of operations. -/
def ResetTrackingBody.run {β : Type} (impl : BodyImpl β) :
    ResetTrackingBody β → List BodyOp → ResetTrackingBody β
  | t, [] => t
  | t, op :: rest => ResetTrackingBody.run impl (t.step impl op) rest

/-- True when no reset in the operation sequence, executed from the given
state, succeeds (the inner body's reset returns false at each reset). -/
def noSuccessfulReset {β : Type} (impl : BodyImpl β) :
    ResetTrackingBody β → List BodyOp → Bool
  | _, [] => true
  | t, .write :: rest => noSuccessfulReset impl (t.step impl .write) rest
  | t, .reset :: rest =>
    !(impl.reset t.body).1 && noSuccessfulReset impl (t.step impl .reset) rest

/-- An HTTP header value, reduced to its text. -/
structure HeaderValue where
  value : String
deriving DecidableEq, Repr

/-- `BytesBody` (body.rs:96): a byte buffer plus a content type. -/
structure BytesBody where
  body : List Nat
  content_type : HeaderValue
deriving DecidableEq, Repr

/-- `BytesBody::new` (body.rs:103). -/
def BytesBody.new (body : List Nat) (content_type : HeaderValue) : BytesBody :=
  { body := body, content_type := content_type }

/-- `BytesBody::content_length` (body.rs:116): the buffer's length. -/
def BytesBody.content_length (b : BytesBody) : Option Nat :=
  some b.body.length

/-- `BytesBody::full_body` (body.rs:124): the whole buffer. -/
def BytesBody.full_body (b : BytesBody) : Option (List Nat) :=
  some b.body

/-- `BytesBody::reset` (body.rs:132): always true. -/
def BytesBody.reset (_ : BytesBody) : Bool :=
  true

/-- The Body contract (body.rs:75): "`write` will only be called if this
method (`full_body`) returns `None`".  So the pipeline invokes `write` on a
body exactly under this guard. -/
def BytesBody.write_invoked (b : BytesBody) : Bool :=
  b.full_body.isNone

/-- A per-service configuration snapshot (URIs, timeout and proxy knobs kept
as representative fields). -/
structure ServiceConfig where
  uris : List String
  connectTimeout : Option Nat
  proxy : Option String
deriving DecidableEq, Repr

/-- The `Default` value of `ServiceConfig` produced by `unwrap_or_default`
in `ClientFactory::client` (client_factory.rs:109): an empty configuration
with no URIs, which makes every request fail fast. -/
def ServiceConfig.default : ServiceConfig :=
  { uris := [], connectTimeout := none, proxy := none }

/-- The full services configuration: global defaults plus the per-service
entries. -/
structure ServicesConfig where
  defaultConfig : ServiceConfig
  services : List (String × ServiceConfig)
deriving DecidableEq, Repr

/-- Modelled from the spec: `ServicesConfig::merged_service` lives in
config.rs, which is not among the sources; per the spec a per-service
`ServiceConfig` is "produced by merging global and per-service
configuration", and a service with no entry is unconfigured (no merged
configuration).  Per-service values override the global defaults. -/
def ServicesConfig.merged_service (c : ServicesConfig) (name : String) :
    Option ServiceConfig :=
  match c.services.lookup name with
  | none => none
  | some sc =>
    some { uris := sc.uris,
           connectTimeout := sc.connectTimeout.orElse fun _ => c.defaultConfig.connectTimeout,
           proxy := sc.proxy.orElse fun _ => c.defaultConfig.proxy }

/-- The per-service configuration a client is built from
(client_factory.rs:107-110): `c.merged_service(&service).unwrap_or_default()`. -/
def client_service_config (c : ServicesConfig) (name : String) : ServiceConfig :=
  (c.merged_service name).getD ServiceConfig.default

/-- The configuration-refresh subscription closure of `ClientFactory::client`
(client_factory.rs:147-154): build a new state from the refreshed config; on
failure propagate the error and keep the stored state, on success store the
new state.  `σ` stands for `ClientState` and `ε` for `conjure_error::Error`
(both built outside these sources), so `make_state` is a parameter. -/
def subscription_refresh {σ ε : Type} (make_state : ServiceConfig → Except ε σ)
    (stored : σ) (config : ServiceConfig) : Except ε Unit × σ :=
  match make_state config with
  | .error e => (.error e, stored)
  | .ok new_state => (.ok (), new_state)

/-- A sample inner body over `Nat` state whose reset always fails. -/
def natBodyImpl : BodyImpl Nat :=
  { write := fun n => (true, n + 1), reset := fun n => (false, n) }

/-- A fresh tracking body over the sample inner body's state. -/
def natTrackingBody : ResetTrackingBody Nat :=
  ResetTrackingBody.new 0

/-- A live writer holding two buffered bytes, for concrete instantiations. -/
def witnessWriter : BodyWriter :=
  { channel := { receiverAlive := true, sent := [] }, buf := [1, 2] }

/-- A writer whose receiver was dropped, for concrete instantiations. -/
def deadWriter : BodyWriter :=
  { channel := { receiverAlive := false, sent := [] }, buf := [1] }

/-- A sample services configuration with one configured service. -/
def sampleServicesConfig : ServicesConfig :=
  { defaultConfig := { uris := [], connectTimeout := some 5, proxy := none },
    services := [("svc", { uris := ["https://a"], connectTimeout := none, proxy := none })] }

/-- A state builder that always fails, for concrete instantiations. -/
def failingMakeState : ServiceConfig → Except String Nat :=
  fun _ => .error "boom"

/-- A state builder that always succeeds, for concrete instantiations. -/
def okMakeState : ServiceConfig → Except String Nat :=
  fun c => .ok c.uris.length

/-- A live writer with an empty buffer, for concrete instantiations. -/
def emptyBufWriter : BodyWriter :=
  { channel := { receiverAlive := true, sent := [] }, buf := [] }

/-- A `poll_write` below the flush threshold only appends to the buffer. -/
theorem poll_write_small (w : BodyWriter) (buf : List Nat) (h : w.buf.length ≤ 4096) :
    w.poll_write buf = (.ok buf.length, { w with buf := w.buf ++ buf }) := by
  unfold BodyWriter.poll_write
  rw [if_neg (by omega)]

/-- A flush of a non-empty buffer on a live channel sends the buffer as one
chunk and empties it. -/
theorem poll_flush_nonempty (w : BodyWriter) (h : w.buf.isEmpty = false)
    (ha : w.channel.receiverAlive = true) :
    w.poll_flush = (.ok (),
      { channel := { receiverAlive := true, sent := w.channel.sent ++ [.chunk w.buf] },
        buf := [] }) := by
  simp [BodyWriter.poll_flush, Channel.send, h, ha]

/-- A `poll_write` above the flush threshold first sends the accumulated
buffer as one chunk, then starts the buffer over with the incoming bytes. -/
theorem poll_write_big (w : BodyWriter) (buf : List Nat) (h : 4096 < w.buf.length)
    (ha : w.channel.receiverAlive = true) :
    w.poll_write buf = (.ok buf.length,
      { channel := { receiverAlive := true, sent := w.channel.sent ++ [.chunk w.buf] },
        buf := buf }) := by
  have hne : w.buf.isEmpty = false := by cases hw : w.buf <;> simp_all
  unfold BodyWriter.poll_write
  rw [if_pos h, poll_flush_nonempty w hne ha]
  simp

/-- A `finish` with a non-empty buffer on a live channel sends the buffer as
one chunk followed by the terminal marker. -/
theorem finish_ok (w : BodyWriter) (h : w.buf.isEmpty = false)
    (ha : w.channel.receiverAlive = true) :
    w.finish = (.ok (),
      { channel := { receiverAlive := true,
                     sent := w.channel.sent ++ [.chunk w.buf, .done] },
        buf := [] }) := by
  unfold BodyWriter.finish
  rw [poll_flush_nonempty w h ha]
  simp [Channel.send]

/-- Three successive AsyncWrite writes of 4096, 4096 and 1808 bytes followed
by `finish` put exactly three parts on the channel: a chunk holding the
first two writes coalesced, a chunk holding the third, and the terminal
marker. -/
theorem writer_trace (s : List BodyPart) (a b c : List Nat)
    (ha : a.length = 4096) (hb : b.length = 4096) (hc : c.length = 1808) :
    ((((((BodyWriter.mk ⟨true, s⟩ []).poll_write a).2.poll_write b).2.poll_write
        c).2.finish).2).channel.sent
      = s ++ [.chunk (a ++ b), .chunk c, .done] := by
  have e1 : (BodyWriter.mk ⟨true, s⟩ []).poll_write a
      = (.ok a.length, BodyWriter.mk ⟨true, s⟩ a) := by
    rw [poll_write_small _ _ (by simp)]
    simp
  have e2 : (BodyWriter.mk ⟨true, s⟩ a).poll_write b
      = (.ok b.length, BodyWriter.mk ⟨true, s⟩ (a ++ b)) := by
    rw [poll_write_small _ _ (by simp; omega)]
  have e3 : (BodyWriter.mk ⟨true, s⟩ (a ++ b)).poll_write c
      = (.ok c.length, BodyWriter.mk ⟨true, s ++ [.chunk (a ++ b)]⟩ c) := by
    rw [poll_write_big _ _ (by simp; omega) rfl]
  have e4 : (BodyWriter.mk ⟨true, s ++ [.chunk (a ++ b)]⟩ c).finish
      = (.ok (), BodyWriter.mk ⟨true, s ++ [.chunk (a ++ b)] ++ [.chunk c, .done]⟩ []) := by
    rw [finish_ok _ (by cases hn : c <;> simp_all) rfl]
  simp only [e1, e2, e3, e4, List.append_assoc]
  simp

/-- The parts on the channel at the end of the 10000-byte scenario. -/
theorem scenario_sent : scenarioFinal.channel.sent =
    [BodyPart.chunk (List.replicate 4096 0 ++ List.replicate 4096 1),
     BodyPart.chunk (List.replicate 1808 2), BodyPart.done] := by
  have h := writer_trace [] (List.replicate 4096 0) (List.replicate 4096 1)
      (List.replicate 1808 2) (by rw [List.length_replicate])
      (by rw [List.length_replicate]) (by rw [List.length_replicate])
  simp only [List.nil_append] at h
  simp only [scenarioFinal, scenarioAfterWrites, scenarioWriter, BodyWriter.new]
  exact h

/-- Concatenation distributes over the chunk payloads of a part list. -/
theorem bytesOnChannel_append (l1 l2 : List BodyPart) :
    bytesOnChannel (l1 ++ l2) = bytesOnChannel l1 ++ bytesOnChannel l2 := by
  induction l1 with
  | nil => rfl
  | cons p rest ih => cases p <;> simp [bytesOnChannel, ih]

/-- Claim C1 counterexample: in the 10000-byte scenario (writes of 4096,
4096 and 1808 bytes through the AsyncWrite interface, then finish) the
chunks on the channel do NOT have sizes 4096, 4096, 1808. -/
theorem scenario_chunks_not_as_claimed :
    chunkSizes scenarioFinal.channel.sent ≠ [4096, 4096, 1808] := by
  rw [scenario_sent]
  simp only [chunkSizes, List.length_append, List.length_replicate]
  decide

/-- Claim C1 (amended): in the 10000-byte scenario exactly 2 chunk parts are
sent, of sizes 8192 and 1808 in that order, followed by the terminal Done
marker — the first two 4096-byte writes coalesce because poll_write only
flushes when the buffer already exceeds 4096 bytes at the start of a
write. -/
theorem scenario_two_chunks :
    scenarioFinal.channel.sent
      = [BodyPart.chunk (List.replicate 4096 0 ++ List.replicate 4096 1),
         BodyPart.chunk (List.replicate 1808 2), BodyPart.done]
    ∧ chunkSizes scenarioFinal.channel.sent = [8192, 1808] := by
  refine ⟨scenario_sent, ?_⟩
  rw [scenario_sent]
  simp only [chunkSizes, List.length_append, List.length_replicate]

/-- Claim C5: a successful `finish` appends to the channel exactly the flush
of the remaining buffer (one chunk when the buffer is non-empty, nothing
when it is empty) followed by the terminal Done marker, and the Done marker
is the only Done among the appended parts. -/
theorem finish_flushes_before_done (w : BodyWriter) (h : w.finish.1 = .ok ()) :
    w.finish.2.channel.sent
      = w.channel.sent ++ (if w.buf.isEmpty then [] else [BodyPart.chunk w.buf])
          ++ [BodyPart.done]
    ∧ BodyPart.done ∉
        (if w.buf.isEmpty then ([] : List BodyPart) else [BodyPart.chunk w.buf]) := by
  rcases w with ⟨⟨alive, sent⟩, buf⟩
  cases alive with
  | false =>
    exfalso
    cases hb : buf <;>
      simp [BodyWriter.finish, BodyWriter.poll_flush, Channel.send, hb] at h
  | true =>
    cases hb : buf with
    | nil => simp [BodyWriter.finish, BodyWriter.poll_flush, Channel.send]
    | cons x xs => simp [BodyWriter.finish, BodyWriter.poll_flush, Channel.send]

/-- Claim C5 witness: `finish` on a live writer holding two buffered bytes
succeeds and sends the buffered chunk followed by Done. -/
theorem finish_flushes_before_done_witness :
    witnessWriter.finish.1 = .ok ()
    ∧ (witnessWriter.finish.2.channel.sent
        = witnessWriter.channel.sent
            ++ (if witnessWriter.buf.isEmpty then [] else [BodyPart.chunk witnessWriter.buf])
            ++ [BodyPart.done]
      ∧ BodyPart.done ∉
          (if witnessWriter.buf.isEmpty then ([] : List BodyPart)
           else [BodyPart.chunk witnessWriter.buf])) :=
  ⟨rfl, finish_flushes_before_done witnessWriter rfl⟩

/-- Claim C6: a successful `write_bytes` appends to the channel the flush of
the accumulated buffer (when non-empty) and then the given chunk, so the
concatenation of all bytes on the channel extends the previous one by the
buffered bytes followed by the new bytes — producer order is preserved. -/
theorem write_bytes_order (w : BodyWriter) (bytes : List Nat)
    (h : (w.write_bytes bytes).1 = .ok ()) :
    (w.write_bytes bytes).2.channel.sent
      = w.channel.sent ++ (if w.buf.isEmpty then [] else [BodyPart.chunk w.buf])
          ++ [BodyPart.chunk bytes]
    ∧ bytesOnChannel (w.write_bytes bytes).2.channel.sent
      = bytesOnChannel w.channel.sent ++ w.buf ++ bytes := by
  rcases w with ⟨⟨alive, sent⟩, buf⟩
  cases alive with
  | false =>
    exfalso
    cases hb : buf <;>
      simp [BodyWriter.write_bytes, BodyWriter.poll_flush, Channel.send, hb] at h
  | true =>
    cases hb : buf with
    | nil =>
      constructor
      · simp [BodyWriter.write_bytes, BodyWriter.poll_flush, Channel.send]
      · simp [BodyWriter.write_bytes, BodyWriter.poll_flush, Channel.send,
          bytesOnChannel_append, bytesOnChannel]
    | cons x xs =>
      constructor
      · simp [BodyWriter.write_bytes, BodyWriter.poll_flush, Channel.send]
      · simp [BodyWriter.write_bytes, BodyWriter.poll_flush, Channel.send,
          bytesOnChannel_append, bytesOnChannel]

/-- Claim C6 witness: `write_bytes` on a live writer with two buffered bytes
flushes the buffer as a chunk before the written chunk. -/
theorem write_bytes_order_witness :
    (witnessWriter.write_bytes [3, 4]).1 = .ok ()
    ∧ ((witnessWriter.write_bytes [3, 4]).2.channel.sent
        = witnessWriter.channel.sent
            ++ (if witnessWriter.buf.isEmpty then [] else [BodyPart.chunk witnessWriter.buf])
            ++ [BodyPart.chunk [3, 4]]
      ∧ bytesOnChannel (witnessWriter.write_bytes [3, 4]).2.channel.sent
        = bytesOnChannel witnessWriter.channel.sent ++ witnessWriter.buf ++ [3, 4]) :=
  ⟨rfl, write_bytes_order witnessWriter [3, 4] rfl⟩

/-- Claim C7: when the channel's receiver was dropped, every operation that
sends (write_bytes, finish, and poll_flush with a non-empty buffer) returns
an error of I/O kind Other to the producer. -/
theorem send_failure_io_error (w : BodyWriter) (bytes : List Nat)
    (h : w.channel.receiverAlive = false) :
    (∃ e, (w.write_bytes bytes).1 = Except.error e ∧ e.kind = ErrorKind.other)
    ∧ (∃ e, w.finish.1 = Except.error e ∧ e.kind = ErrorKind.other)
    ∧ (w.buf.isEmpty = false →
        ∃ e, w.poll_flush.1 = Except.error e ∧ e.kind = ErrorKind.other) := by
  rcases w with ⟨⟨alive, sent⟩, buf⟩
  simp only at h
  subst h
  refine ⟨?_, ?_, ?_⟩
  · cases hb : buf <;>
      simp [BodyWriter.write_bytes, BodyWriter.poll_flush, Channel.send, hb]
  · cases hb : buf <;>
      simp [BodyWriter.finish, BodyWriter.poll_flush, Channel.send, hb]
  · intro hne
    cases hb : buf with
    | nil => rw [hb] at hne; simp at hne
    | cons x xs => simp [BodyWriter.poll_flush, Channel.send, hb]

/-- Claim C7 witness: on a writer whose receiver was dropped, write_bytes,
finish and poll_flush all fail with I/O kind Other. -/
theorem send_failure_io_error_witness :
    deadWriter.channel.receiverAlive = false
    ∧ ((∃ e, (deadWriter.write_bytes [9]).1 = Except.error e ∧ e.kind = ErrorKind.other)
      ∧ (∃ e, deadWriter.finish.1 = Except.error e ∧ e.kind = ErrorKind.other)
      ∧ (deadWriter.buf.isEmpty = false →
          ∃ e, deadWriter.poll_flush.1 = Except.error e ∧ e.kind = ErrorKind.other)) :=
  ⟨by decide, send_failure_io_error deadWriter [9] (by decide)⟩

/-- Claim C9: a flush of an empty buffer completes immediately with success
and an unchanged writer, and whatever a flush appends to the channel never
contains a zero-length chunk. -/
theorem poll_flush_empty_and_no_empty_chunk (w : BodyWriter) :
    (w.buf = [] → w.poll_flush = (Except.ok (), w))
    ∧ ∃ extra, w.poll_flush.2.channel.sent = w.channel.sent ++ extra
        ∧ ∀ bs, BodyPart.chunk bs ∈ extra → bs ≠ [] := by
  rcases w with ⟨⟨alive, sent⟩, buf⟩
  constructor
  · intro hb
    subst hb
    simp [BodyWriter.poll_flush]
  · cases hb : buf with
    | nil => exact ⟨[], by simp [BodyWriter.poll_flush], by simp⟩
    | cons x xs =>
      cases alive with
      | false => exact ⟨[], by simp [BodyWriter.poll_flush, Channel.send], by simp⟩
      | true =>
        refine ⟨[BodyPart.chunk (x :: xs)], ?_, ?_⟩
        · simp [BodyWriter.poll_flush, Channel.send]
        · intro bs hmem
          simp at hmem
          subst hmem
          simp

/-- Claim C9 witness: flushing a live writer with an empty buffer returns
success and the very same writer. -/
theorem poll_flush_empty_witness :
    emptyBufWriter.buf = []
    ∧ emptyBufWriter.poll_flush = (Except.ok (), emptyBufWriter) :=
  ⟨rfl, (poll_flush_empty_and_no_empty_chunk emptyBufWriter).1 rfl⟩

/-- Claim C10: poll_shutdown always completes immediately with success and
the unchanged writer — buffer and channel untouched, and in particular no
Done marker appears that was not already on the channel. -/
theorem poll_shutdown_noop (w : BodyWriter) :
    w.poll_shutdown = (Except.ok (), w)
    ∧ w.poll_shutdown.2.buf = w.buf
    ∧ w.poll_shutdown.2.channel.sent = w.channel.sent
    ∧ (BodyPart.done ∉ w.channel.sent → BodyPart.done ∉ w.poll_shutdown.2.channel.sent) :=
  ⟨rfl, rfl, rfl, fun h => h⟩

/-- Claim C10 witness: shutting down the buffered witness writer changes
nothing and sends no Done. -/
theorem poll_shutdown_noop_witness :
    BodyPart.done ∉ witnessWriter.channel.sent
    ∧ BodyPart.done ∉ witnessWriter.poll_shutdown.2.channel.sent :=
  ⟨by decide, (poll_shutdown_noop witnessWriter).2.2.2 (by decide)⟩

/-- Running a tracking body over concatenated operation lists runs them in
sequence. -/
theorem run_append {β : Type} (impl : BodyImpl β) (t : ResetTrackingBody β)
    (l1 l2 : List BodyOp) :
    ResetTrackingBody.run impl t (l1 ++ l2)
      = ResetTrackingBody.run impl (ResetTrackingBody.run impl t l1) l2 := by
  induction l1 generalizing t with
  | nil => rfl
  | cons op rest ih => simp [ResetTrackingBody.run, ih]

/-- Once `needs_reset` is set, it stays set across any sequence of
operations containing no successful reset. -/
theorem needs_reset_persists {β : Type} (impl : BodyImpl β) (t : ResetTrackingBody β)
    (ops : List BodyOp) (hne : t.needs_reset = true)
    (hno : noSuccessfulReset impl t ops = true) :
    (ResetTrackingBody.run impl t ops).needs_reset = true := by
  induction ops generalizing t with
  | nil => simpa [ResetTrackingBody.run] using hne
  | cons op rest ih =>
    cases op with
    | write =>
      simp [noSuccessfulReset] at hno
      exact ih _ (by simp [ResetTrackingBody.step, ResetTrackingBody.write]) hno
    | reset =>
      simp [noSuccessfulReset] at hno
      obtain ⟨hfail, hrest⟩ := hno
      refine ih _ ?_ hrest
      simp [ResetTrackingBody.step, ResetTrackingBody.reset, hfail, hne]

/-- Claim C2: write sets `needs_reset` (and delegates to the inner write);
reset delegates to the inner reset, clearing `needs_reset` exactly when it
returns true; consequently after any history holding a write with no later
successful reset, `needs_reset` is true. -/
theorem reset_tracking_correct {β : Type} (impl : BodyImpl β) (t : ResetTrackingBody β) :
    ((t.write impl).2.needs_reset = true
      ∧ (t.write impl).1 = (impl.write t.body).1
      ∧ (t.write impl).2.body = (impl.write t.body).2)
    ∧ ((t.reset impl).1 = (impl.reset t.body).1
      ∧ (t.reset impl).2.body = (impl.reset t.body).2
      ∧ ((impl.reset t.body).1 = true → (t.reset impl).2.needs_reset = false)
      ∧ ((impl.reset t.body).1 = false → (t.reset impl).2.needs_reset = t.needs_reset))
    ∧ (∀ pre post,
        noSuccessfulReset impl
            ((ResetTrackingBody.run impl t pre).step impl .write) post = true →
        (ResetTrackingBody.run impl t (pre ++ BodyOp.write :: post)).needs_reset = true) := by
  refine ⟨⟨rfl, rfl, rfl⟩, ⟨rfl, rfl, ?_, ?_⟩, ?_⟩
  · intro h
    simp [ResetTrackingBody.reset, h]
  · intro h
    simp [ResetTrackingBody.reset, h]
  · intro pre post hno
    rw [run_append]
    show (ResetTrackingBody.run impl
      ((ResetTrackingBody.run impl t pre).step impl .write) post).needs_reset = true
    exact needs_reset_persists impl _ post
      (by simp [ResetTrackingBody.step, ResetTrackingBody.write]) hno

/-- Claim C2 witness: after a write followed by one failing reset, the
sample tracking body still needs a reset. -/
theorem reset_tracking_witness :
    noSuccessfulReset natBodyImpl
        ((ResetTrackingBody.run natBodyImpl natTrackingBody []).step natBodyImpl .write)
        [BodyOp.reset] = true
    ∧ (ResetTrackingBody.run natBodyImpl natTrackingBody
        ([] ++ BodyOp.write :: [BodyOp.reset])).needs_reset = true :=
  ⟨by decide, (reset_tracking_correct natBodyImpl natTrackingBody).2.2 [] [BodyOp.reset]
    (by decide)⟩

/-- Claim C3: every BytesBody reports its buffer as the full body and its
length as the content length, resets successfully, and — since `full_body`
never returns none — the guard under which the pipeline invokes `write`
never holds, so its unreachable `write` is never reached. -/
theorem bytes_body_spec (b : BytesBody) :
    b.full_body = some b.body
    ∧ b.content_length = some b.body.length
    ∧ b.reset = true
    ∧ b.write_invoked = false :=
  ⟨rfl, rfl, rfl, rfl⟩

/-- Claim C4: the refresh subscription propagates a state-build failure back
to the configuration source and keeps the stored state; only a successful
rebuild replaces the stored state. -/
theorem refresh_swap_or_keep {σ ε : Type} (make_state : ServiceConfig → Except ε σ)
    (stored : σ) (config : ServiceConfig) :
    (∀ e, make_state config = .error e →
        subscription_refresh make_state stored config = (.error e, stored))
    ∧ (∀ ns, make_state config = .ok ns →
        subscription_refresh make_state stored config = (.ok (), ns)) := by
  constructor <;> intro x h <;> simp [subscription_refresh, h]

/-- Claim C4 witness: a failing builder leaves the stored state 7 in place
and surfaces its error; a succeeding builder replaces it. -/
theorem refresh_swap_witness :
    (failingMakeState ServiceConfig.default = .error "boom"
      ∧ subscription_refresh failingMakeState 7 ServiceConfig.default = (.error "boom", 7))
    ∧ (okMakeState ServiceConfig.default = .ok 0
      ∧ subscription_refresh okMakeState 7 ServiceConfig.default = (.ok (), 0)) :=
  ⟨⟨rfl, (refresh_swap_or_keep failingMakeState 7 ServiceConfig.default).1 "boom" rfl⟩,
   ⟨rfl, (refresh_swap_or_keep okMakeState 7 ServiceConfig.default).2 0 rfl⟩⟩

/-- Claim C8: the per-service configuration a client is built from is the
merged configuration for the service name when one exists, and the default
ServiceConfig when the service is unconfigured — construction never fails at
this step. -/
theorem client_config_fallback (c : ServicesConfig) (name : String) :
    (c.merged_service name = none → client_service_config c name = ServiceConfig.default)
    ∧ (∀ sc, c.merged_service name = some sc → client_service_config c name = sc) := by
  constructor
  · intro h
    simp [client_service_config, h]
  · intro sc h
    simp [client_service_config, h]

/-- Claim C8 witness: on the sample configuration an absent service falls
back to the default config and a present service gets its merged config. -/
theorem client_config_fallback_witness :
    (sampleServicesConfig.merged_service "absent" = none
      ∧ client_service_config sampleServicesConfig "absent" = ServiceConfig.default)
    ∧ (sampleServicesConfig.merged_service "svc"
        = some { uris := ["https://a"], connectTimeout := some 5, proxy := none }
      ∧ client_service_config sampleServicesConfig "svc"
        = { uris := ["https://a"], connectTimeout := some 5, proxy := none }) :=
  ⟨⟨by decide, (client_config_fallback sampleServicesConfig "absent").1 (by decide)⟩,
   ⟨by decide, (client_config_fallback sampleServicesConfig "svc").2 _ (by decide)⟩⟩

end Conjure
